import Mathlib

/-!
Verification of the EdgeCare fairness-ranked triage queue and its
safety-override layer.

Shallow embedding of the Python sources:
  * `models.py` — enums and record types (pydantic models become structures;
    `datetime` timestamps become `Int`, floats become `ℚ`).
  * `triage_engine.py` — `apply_clinical_overrides` and its three rules.
  * `priority_queue.py` — `FairTriageQueue` with `add_patient`,
    `get_sorted_queue`, `escalate_patient`, `mark_seen` and the audit log.

Python's mutable objects are modelled by value-passing: each mutating
operation returns the updated queue state.  The audit-log entries keep the
`action` tag and the `patient_id` detail; the wall-clock timestamp and the
remaining free-form details of `_log_action` are elided, as no property here
inspects them — only the presence and count of records matters.
-/

namespace EdgeCare

/-- `SymptomSeverity` enum from models.py. -/
inductive SymptomSeverity where
  | MILD
  | MODERATE
  | SEVERE
  | CRITICAL
deriving DecidableEq

/-- `RiskLevel` enum from models.py. -/
inductive RiskLevel where
  | LOW
  | MEDIUM
  | HIGH
  | CRITICAL
deriving DecidableEq

/-- `VitalSigns` from models.py; every field is optional there. -/
structure VitalSigns where
  heart_rate : Option Int
  systolic_bp : Option Int
  diastolic_bp : Option Int
  temperature : Option ℚ
  oxygen_saturation : Option Int
deriving DecidableEq

/-- `Symptom` from models.py (the optional duration/notes fields play no role
in any operation verified here and are elided). -/
structure Symptom where
  name : String
  severity : SymptomSeverity
deriving DecidableEq

/-- `PatientIntake` from models.py (free-text history/medication/allergy
fields and demographics are elided: no verified operation reads them). -/
structure PatientIntake where
  chief_complaint : String
  symptoms : List Symptom
  vital_signs : Option VitalSigns
deriving DecidableEq

/-- `TriageDecision` from models.py. -/
structure TriageDecision where
  risk_level : RiskLevel
  confidence_score : ℚ
  clinical_summary : String
  suggested_next_steps : String
  reasoning : Option String
deriving DecidableEq

/-- `TriageEntry` from models.py. -/
structure TriageEntry where
  patient_id : String
  intake : PatientIntake
  triage_decision : TriageDecision
  intake_timestamp : Int
  triage_timestamp : Int
  queue_position : Nat
  wait_time_minutes : ℚ
  escalation_reason : Option String
deriving DecidableEq

/-- One entry of `FairTriageQueue.audit_log` (`_log_action` in
priority_queue.py): the action tag and the patient_id detail. -/
structure AuditRecord where
  action : String
  patient_id : Option String
deriving DecidableEq

/-- The mutable state of `FairTriageQueue` in priority_queue.py. -/
structure FairTriageQueue where
  queue : List TriageEntry
  audit_log : List AuditRecord
deriving DecidableEq

/-! ## triage_engine.py: `apply_clinical_overrides` -/

/-- Python's `str.lower()`: lowercase every character (the sources only ever
lower-case ASCII symptom names, where `Char.toLower` agrees with Python). -/
def str_lower (s : String) : String := String.mk (s.data.map Char.toLower)

/-- `RED_FLAG_SYMPTOMS` of triage_engine.py. -/
def RED_FLAG_SYMPTOMS : List String :=
  ["chest pain", "shortness of breath", "breathing difficulty", "syncope",
   "unconscious", "stroke", "seizure", "severe bleeding"]

/-- The guard of rule 1 of `apply_clinical_overrides`:
`(vitals.oxygen_saturation is not None and vitals.oxygen_saturation < 90) or
(vitals.systolic_bp is not None and vitals.systolic_bp < 90) or
(vitals.heart_rate is not None and vitals.heart_rate > 130)`. -/
def critical_vitals_detected (v : VitalSigns) : Bool :=
  v.oxygen_saturation.elim false (fun x => decide (x < 90)) ||
  v.systolic_bp.elim false (fun x => decide (x < 90)) ||
  v.heart_rate.elim false (fun x => decide (x > 130))

/-- Rule 1 fires iff `intake.vital_signs` is present (`if vitals:`) and the
critical-vitals guard holds. -/
def vitals_rule_fires (intake : PatientIntake) : Bool :=
  intake.vital_signs.elim false critical_vitals_detected

/-- `any(flag in symptom_names for flag in RED_FLAG_SYMPTOMS)` where
`symptom_names = [s.name.lower() for s in intake.symptoms]`.  Note the Python
`in` is list membership: a lowercased symptom name must equal a vocabulary
entry exactly. -/
def red_flag_present (intake : PatientIntake) : Bool :=
  RED_FLAG_SYMPTOMS.any
    (fun flag => (intake.symptoms.map (fun s => str_lower s.name)).contains flag)

/-- `any(s.severity.value in ["SEVERE", "CRITICAL"] for s in intake.symptoms)`. -/
def severe_symptom_present (intake : PatientIntake) : Bool :=
  intake.symptoms.any
    (fun s => decide (s.severity = SymptomSeverity.SEVERE ∨
                      s.severity = SymptomSeverity.CRITICAL))

/-- Rule 3 of `apply_clinical_overrides` (confidence calibration):
`+0.1` clamped to `1.0` when a SEVERE/CRITICAL symptom is present, else
`-0.05` floored at `0.5`. -/
def confidence_calibration (intake : PatientIntake) (d : TriageDecision) :
    TriageDecision :=
  if severe_symptom_present intake then
    { d with confidence_score := min 1 (d.confidence_score + 1/10) }
  else
    { d with confidence_score := max (1/2) (d.confidence_score - 1/20) }

/-- `apply_clinical_overrides` of triage_engine.py.  Rule 1 (critical vitals)
returns immediately; otherwise rule 2 (red-flag symptoms) may raise LOW/MEDIUM
to HIGH, and rule 3 (confidence calibration) always runs.  `decision.reasoning
or ""` is `Option.getD` (a `None` and an empty string behave alike under
string concatenation). -/
def apply_clinical_overrides (intake : PatientIntake) (decision : TriageDecision) :
    TriageDecision :=
  if vitals_rule_fires intake then
    { decision with
        risk_level := RiskLevel.CRITICAL
        reasoning := some (decision.reasoning.getD "" ++
          " | Critical vitals detected (life-threatening)")
        confidence_score := min 1 (decision.confidence_score + 2/10) }
  else
    confidence_calibration intake
      (if red_flag_present intake ∧
          (decision.risk_level = RiskLevel.LOW ∨
           decision.risk_level = RiskLevel.MEDIUM) then
        { decision with
            risk_level := RiskLevel.HIGH
            reasoning := some (decision.reasoning.getD "" ++
              " | Safety override: red-flag symptom") }
      else decision)

/-! ## priority_queue.py: `FairTriageQueue` -/

/-- `SEVERITY_SCORE` of priority_queue.py. -/
def SEVERITY_SCORE : SymptomSeverity → Nat
  | SymptomSeverity.MILD => 1
  | SymptomSeverity.MODERATE => 2
  | SymptomSeverity.SEVERE => 3
  | SymptomSeverity.CRITICAL => 4

/-- `get_patient_severity_score`: the maximum severity score over the
patient's symptoms, `0` when there are none.  Every score is positive, so a
fold of `max` from `0` equals Python's `max(...)` over a non-empty list. -/
def get_patient_severity_score (entry : TriageEntry) : Nat :=
  (entry.intake.symptoms.map (fun s => SEVERITY_SCORE s.severity)).foldr max 0

/-- `RISK_PRIORITY_WEIGHT` of priority_queue.py. -/
def RISK_PRIORITY_WEIGHT : RiskLevel → Int
  | RiskLevel.CRITICAL => 100
  | RiskLevel.HIGH => 75
  | RiskLevel.MEDIUM => 50
  | RiskLevel.LOW => 25

/-- The Python sort key of `get_sorted_queue`:
`(-RISK_PRIORITY_WEIGHT[...], -severity, -confidence, intake_timestamp)`,
assembled as a lexicographically ordered product. -/
def sortKey (e : TriageEntry) : Int ×ₗ Int ×ₗ ℚ ×ₗ Int :=
  toLex (-(RISK_PRIORITY_WEIGHT e.triage_decision.risk_level),
    toLex (-(get_patient_severity_score e : Int),
      toLex (-(e.triage_decision.confidence_score),
        e.intake_timestamp)))

/-- The comparison Python's `sorted` performs on the keys of two entries. -/
def keyLe (a b : TriageEntry) : Bool :=
  decide (sortKey a ≤ sortKey b)

/-- Wait-time refresh done at the top of `get_sorted_queue`:
`entry.wait_time_minutes = (now - entry.intake_timestamp).total_seconds()/60`
(the current wall-clock instant is passed in as `now`, in seconds). -/
def update_wait_time (now : Int) (e : TriageEntry) : TriageEntry :=
  { e with wait_time_minutes := ((now - e.intake_timestamp : Int) : ℚ) / 60 }

/-- `for i, entry in enumerate(sorted_queue, 1): entry.queue_position = i`. -/
def assign_positions : Nat → List TriageEntry → List TriageEntry
  | _, [] => []
  | i, e :: rest => { e with queue_position := i } :: assign_positions (i + 1) rest

/-- `FairTriageQueue.get_sorted_queue`: refresh wait times, stable-sort by the
four-component key, then write 1-based positions into the ranked entries and
return them.  Python's `sorted` is a stable sort, modelled by
`List.mergeSort`. -/
def get_sorted_queue (q : FairTriageQueue) (now : Int) : List TriageEntry :=
  assign_positions 1 ((q.queue.map (update_wait_time now)).mergeSort keyLe)

/-- `FairTriageQueue.add_patient`: set position `len(queue)+1` and wait time
`0`, append to the backing list, and log `PATIENT_ADDED`.  The source checks
nothing about the new entry's `patient_id`. -/
def add_patient (q : FairTriageQueue) (entry : TriageEntry) : FairTriageQueue :=
  { queue := q.queue ++
      [{ entry with queue_position := q.queue.length + 1, wait_time_minutes := 0 }],
    audit_log := q.audit_log ++
      [{ action := "PATIENT_ADDED", patient_id := some entry.patient_id }] }

/-- The per-entry mutation of `escalate_patient`: overwrite `risk_level` and
`escalation_reason`. -/
def escalate_entry (newRisk : RiskLevel) (reason : String) (e : TriageEntry) :
    TriageEntry :=
  { e with
      triage_decision := { e.triage_decision with risk_level := newRisk }
      escalation_reason := some reason }

/-- The `for entry in self.queue` loop of `escalate_patient`: mutate and
return at the first entry whose `patient_id` matches, leaving the rest of the
list untouched; `none` when no entry matches. -/
def escalate_in_queue (pid : String) (newRisk : RiskLevel) (reason : String) :
    List TriageEntry → Option (TriageEntry × List TriageEntry)
  | [] => none
  | e :: rest =>
    if e.patient_id = pid then
      some (escalate_entry newRisk reason e, escalate_entry newRisk reason e :: rest)
    else
      match escalate_in_queue pid newRisk reason rest with
      | none => none
      | some (r, rest2) => some (r, e :: rest2)

/-- `FairTriageQueue.escalate_patient`: first match is mutated and returned
with an `ESCALATION` audit record; an unknown `patient_id` returns `None`
with no mutation and no record. -/
def escalate_patient (q : FairTriageQueue) (pid : String) (newRisk : RiskLevel)
    (reason : String) : Option TriageEntry × FairTriageQueue :=
  match escalate_in_queue pid newRisk reason q.queue with
  | none => (none, q)
  | some (e2, q2) =>
      (some e2,
       { queue := q2,
         audit_log := q.audit_log ++
           [{ action := "ESCALATION", patient_id := some pid }] })

/-- The `for i, entry in enumerate(self.queue)` loop of `mark_seen`: pop the
first entry whose `patient_id` matches. -/
def remove_first (pid : String) :
    List TriageEntry → Option (TriageEntry × List TriageEntry)
  | [] => none
  | e :: rest =>
    if e.patient_id = pid then some (e, rest)
    else
      match remove_first pid rest with
      | none => none
      | some (r, rest2) => some (r, e :: rest2)

/-- `FairTriageQueue.mark_seen`: remove the first matching entry, log
`PATIENT_SEEN`, return the removed entry; an unknown `patient_id` returns
`None` with no mutation and no record. -/
def mark_seen (q : FairTriageQueue) (pid : String) :
    Option TriageEntry × FairTriageQueue :=
  match remove_first pid q.queue with
  | none => (none, q)
  | some (e, q2) =>
      (some e,
       { queue := q2,
         audit_log := q.audit_log ++
           [{ action := "PATIENT_SEEN", patient_id := some pid }] })

/-! ## Specification-side definitions used to state the claims -/

/-- The ranking order the spec describes for `get_sorted_queue`: risk weight
descending, then maximum symptom severity score descending, then
confidence_score descending, then intake_timestamp ascending, compared
lexicographically.  `rankedBefore a b` says `a` may legitimately appear no
later than `b` in the ranked view. -/
def rankedBefore (a b : TriageEntry) : Prop :=
  RISK_PRIORITY_WEIGHT b.triage_decision.risk_level <
    RISK_PRIORITY_WEIGHT a.triage_decision.risk_level ∨
  (RISK_PRIORITY_WEIGHT a.triage_decision.risk_level =
     RISK_PRIORITY_WEIGHT b.triage_decision.risk_level ∧
   (get_patient_severity_score b < get_patient_severity_score a ∨
    (get_patient_severity_score a = get_patient_severity_score b ∧
     (b.triage_decision.confidence_score < a.triage_decision.confidence_score ∨
      (a.triage_decision.confidence_score = b.triage_decision.confidence_score ∧
       a.intake_timestamp ≤ b.intake_timestamp)))))

/-- A `TriageEntry` without its two derived fields (`queue_position`,
`wait_time_minutes`), which every ranking pass overwrites.  Used to state
that `get_sorted_queue` returns the active entries themselves. -/
structure EntryCore where
  patient_id : String
  intake : PatientIntake
  triage_decision : TriageDecision
  intake_timestamp : Int
  triage_timestamp : Int
  escalation_reason : Option String
deriving DecidableEq

/-- Forget the derived fields of an entry. -/
def TriageEntry.core (e : TriageEntry) : EntryCore :=
  { patient_id := e.patient_id
    intake := e.intake
    triage_decision := e.triage_decision
    intake_timestamp := e.intake_timestamp
    triage_timestamp := e.triage_timestamp
    escalation_reason := e.escalation_reason }

/-! ## Concrete fixtures for witnesses and counterexamples -/

/-- A LOW-risk decision with confidence 0.5. -/
def decisionLow : TriageDecision :=
  { risk_level := RiskLevel.LOW
    confidence_score := 1/2
    clinical_summary := "s"
    suggested_next_steps := "n"
    reasoning := none }

/-- A MEDIUM-risk decision with confidence 0.5. -/
def decisionMid : TriageDecision :=
  { risk_level := RiskLevel.MEDIUM
    confidence_score := 1/2
    clinical_summary := "s"
    suggested_next_steps := "n"
    reasoning := none }

/-- Vitals with oxygen saturation 85 (< 90): the critical-vitals guard holds. -/
def lowVitals : VitalSigns :=
  { heart_rate := some 80
    systolic_bp := some 120
    diastolic_bp := some 80
    temperature := none
    oxygen_saturation := some 85 }

/-- An intake whose vitals trip the critical-vitals rule. -/
def intakeHypoxic : PatientIntake :=
  { chief_complaint := "dizzy"
    symptoms := []
    vital_signs := some lowVitals }

/-- An intake whose chief complaint contains "chest pain" but whose symptom
list and vitals are empty: no override rule fires on it. -/
def intakeComplaintOnly : PatientIntake :=
  { chief_complaint := "chest pain"
    symptoms := []
    vital_signs := none }

/-- An intake with a mild "Chest Pain" symptom (red-flag by name) and no
vitals. -/
def intakeChestPain : PatientIntake :=
  { chief_complaint := "discomfort"
    symptoms := [{ name := "Chest Pain", severity := SymptomSeverity.MILD }]
    vital_signs := none }

/-- A queue entry for witnesses: LOW risk, confidence as given. -/
def mkEntry (pid : String) (conf : ℚ) (ts : Int) : TriageEntry :=
  { patient_id := pid
    intake := intakeComplaintOnly
    triage_decision := { decisionLow with confidence_score := conf }
    intake_timestamp := ts
    triage_timestamp := ts
    queue_position := 0
    wait_time_minutes := 0
    escalation_reason := none }

/-- A queue already holding two active entries with the same patient_id
"p1" (reachable, since `add_patient` never rejects), plus one "p2". -/
def dupQueue : FairTriageQueue :=
  { queue := [mkEntry "p1" (1/2) 0, mkEntry "p2" (3/4) 1, mkEntry "p1" (1/4) 2]
    audit_log := [] }

/-! # Helper lemmas -/

theorem confidence_calibration_risk_level (intake : PatientIntake) (d : TriageDecision) :
    (confidence_calibration intake d).risk_level = d.risk_level := by
  unfold confidence_calibration
  split <;> rfl

theorem confidence_calibration_reasoning (intake : PatientIntake) (d : TriageDecision) :
    (confidence_calibration intake d).reasoning = d.reasoning := by
  unfold confidence_calibration
  split <;> rfl

theorem red_flag_present_of_symptom (intake : PatientIntake)
    (hrf : ∃ s ∈ intake.symptoms, str_lower s.name ∈ RED_FLAG_SYMPTOMS) :
    red_flag_present intake = true := by
  obtain ⟨s, hs, hmem⟩ := hrf
  unfold red_flag_present
  rw [List.any_eq_true]
  refine ⟨str_lower s.name, hmem, ?_⟩
  have hmm : str_lower s.name ∈ intake.symptoms.map (fun t => str_lower t.name) :=
    List.mem_map.mpr ⟨s, hs, rfl⟩
  simpa using hmm

/-- Shared shape of the non-vitals path when the red-flag rule fires. -/
theorem red_flag_branch (intake : PatientIntake) (decision : TriageDecision)
    (hnv : vitals_rule_fires intake = false)
    (hflag : red_flag_present intake = true)
    (hlm : decision.risk_level = RiskLevel.LOW ∨
           decision.risk_level = RiskLevel.MEDIUM) :
    apply_clinical_overrides intake decision =
      confidence_calibration intake
        { decision with
            risk_level := RiskLevel.HIGH
            reasoning := some (decision.reasoning.getD "" ++
              " | Safety override: red-flag symptom") } := by
  unfold apply_clinical_overrides
  rw [hnv]
  simp only [Bool.false_eq_true, if_false]
  rw [if_pos ⟨by rw [hflag], hlm⟩]

/-- Without critical vitals, the returned risk level is HIGH exactly when the
red-flag rule fires on a LOW/MEDIUM input, else the input's own level. -/
theorem apply_risk_level_eq (intake : PatientIntake) (d : TriageDecision)
    (hnv : vitals_rule_fires intake = false) :
    (apply_clinical_overrides intake d).risk_level =
      if red_flag_present intake ∧
         (d.risk_level = RiskLevel.LOW ∨ d.risk_level = RiskLevel.MEDIUM)
      then RiskLevel.HIGH else d.risk_level := by
  unfold apply_clinical_overrides
  rw [hnv]
  simp only [Bool.false_eq_true, if_false]
  rw [confidence_calibration_risk_level]
  by_cases hg : red_flag_present intake ∧
      (d.risk_level = RiskLevel.LOW ∨ d.risk_level = RiskLevel.MEDIUM)
  · rw [if_pos hg, if_pos hg]
  · rw [if_neg hg, if_neg hg]

/-! # Claims about `apply_clinical_overrides` (triage_engine.py) -/

/-- Claim C4: whenever vitals are present with oxygen saturation below 90,
systolic blood pressure below 90, or heart rate above 130, the override
returns immediately with risk level CRITICAL, the fixed critical-vitals note
appended, and confidence raised by 0.2 clamped at 1.0 — for every input
decision, and with no further rule applied. -/
theorem critical_vitals_override (intake : PatientIntake) (decision : TriageDecision)
    (v : VitalSigns) (hv : intake.vital_signs = some v)
    (hcrit : (∃ x, v.oxygen_saturation = some x ∧ x < 90) ∨
             (∃ x, v.systolic_bp = some x ∧ x < 90) ∨
             (∃ x, v.heart_rate = some x ∧ 130 < x)) :
    apply_clinical_overrides intake decision =
      { decision with
          risk_level := RiskLevel.CRITICAL
          reasoning := some (decision.reasoning.getD "" ++
            " | Critical vitals detected (life-threatening)")
          confidence_score := min 1 (decision.confidence_score + 2/10) } := by
  have hfire : vitals_rule_fires intake = true := by
    rcases hcrit with ⟨x, hx, hlt⟩ | ⟨x, hx, hlt⟩ | ⟨x, hx, hlt⟩ <;>
      simp [vitals_rule_fires, hv, critical_vitals_detected, hx, hlt]
  unfold apply_clinical_overrides
  rw [hfire]
  simp

/-- Witness for C4 at the concrete hypoxic intake (oxygen saturation 85). -/
theorem critical_vitals_override_witness :
    intakeHypoxic.vital_signs = some lowVitals ∧
    apply_clinical_overrides intakeHypoxic decisionLow =
      { decisionLow with
          risk_level := RiskLevel.CRITICAL
          reasoning := some (decisionLow.reasoning.getD "" ++
            " | Critical vitals detected (life-threatening)")
          confidence_score := min 1 (decisionLow.confidence_score + 2/10) } :=
  ⟨rfl, critical_vitals_override intakeHypoxic decisionLow lowVitals rfl
    (Or.inl ⟨85, rfl, by norm_num⟩)⟩

/-- Claim C5: when the critical-vitals rule does not fire, a symptom whose
lower-cased name is in the red-flag vocabulary raises a LOW or MEDIUM risk
level to HIGH with the override note appended, and the confidence-calibration
rule still runs on the result. -/
theorem red_flag_override (intake : PatientIntake) (decision : TriageDecision)
    (hnv : vitals_rule_fires intake = false)
    (hrf : ∃ s ∈ intake.symptoms, str_lower s.name ∈ RED_FLAG_SYMPTOMS)
    (hlm : decision.risk_level = RiskLevel.LOW ∨
           decision.risk_level = RiskLevel.MEDIUM) :
    apply_clinical_overrides intake decision =
      confidence_calibration intake
        { decision with
            risk_level := RiskLevel.HIGH
            reasoning := some (decision.reasoning.getD "" ++
              " | Safety override: red-flag symptom") } ∧
    (apply_clinical_overrides intake decision).risk_level = RiskLevel.HIGH := by
  have h := red_flag_branch intake decision hnv
    (red_flag_present_of_symptom intake hrf) hlm
  exact ⟨h, by rw [h, confidence_calibration_risk_level]⟩

/-- Witness for C5: a mild "Chest Pain" symptom on a LOW decision. -/
theorem red_flag_override_witness :
    apply_clinical_overrides intakeChestPain decisionLow =
      confidence_calibration intakeChestPain
        { decisionLow with
            risk_level := RiskLevel.HIGH
            reasoning := some (decisionLow.reasoning.getD "" ++
              " | Safety override: red-flag symptom") } ∧
    (apply_clinical_overrides intakeChestPain decisionLow).risk_level =
      RiskLevel.HIGH :=
  red_flag_override intakeChestPain decisionLow rfl
    ⟨{ name := "Chest Pain", severity := SymptomSeverity.MILD },
      by decide, by decide⟩
    (Or.inl rfl)

/-- Claim C8: a confidence score in [0,1] stays in [0,1] through every pass of
the override engine — each adjustment is clamped (at 1.0 above, at 0.5 for the
calibration decrease). -/
theorem confidence_stays_in_unit_interval (intake : PatientIntake)
    (decision : TriageDecision)
    (h0 : 0 ≤ decision.confidence_score) (h1 : decision.confidence_score ≤ 1) :
    0 ≤ (apply_clinical_overrides intake decision).confidence_score ∧
    (apply_clinical_overrides intake decision).confidence_score ≤ 1 := by
  unfold apply_clinical_overrides
  by_cases hv : vitals_rule_fires intake
  · rw [if_pos hv]
    exact ⟨le_min (by norm_num) (by linarith), min_le_left _ _⟩
  · rw [if_neg hv]
    have hmid : ∀ d1 : TriageDecision,
        d1.confidence_score = decision.confidence_score →
        0 ≤ (confidence_calibration intake d1).confidence_score ∧
        (confidence_calibration intake d1).confidence_score ≤ 1 := by
      intro d1 hd
      unfold confidence_calibration
      split
      · exact ⟨le_min (by norm_num) (by rw [hd]; linarith), min_le_left _ _⟩
      · refine ⟨le_trans (by norm_num) (le_max_left _ _), ?_⟩
        exact max_le (by norm_num) (by rw [hd]; linarith)
    apply hmid
    split <;> rfl

/-- Witness for C8 at a concrete intake and confidence 0.5. -/
theorem confidence_stays_in_unit_interval_witness :
    (0 : ℚ) ≤ decisionMid.confidence_score ∧ decisionMid.confidence_score ≤ 1 ∧
    0 ≤ (apply_clinical_overrides intakeChestPain decisionMid).confidence_score ∧
    (apply_clinical_overrides intakeChestPain decisionMid).confidence_score ≤ 1 := by
  refine ⟨by norm_num [decisionMid], by norm_num [decisionMid], ?_⟩
  exact confidence_stays_in_unit_interval intakeChestPain decisionMid
    (by norm_num [decisionMid]) (by norm_num [decisionMid])

/-- Counterexample to claim C6 as stated: an intake whose chief complaint is
exactly "chest pain" (so it certainly contains that text) with an empty
symptom list, no vitals, and a raw LOW decision is NOT raised: the override
only inspects symptom names, never the chief complaint, and the returned risk
level is still LOW — strictly below HIGH in priority weight. -/
theorem chief_complaint_ignored :
    intakeComplaintOnly.chief_complaint = "chest pain" ∧
    vitals_rule_fires intakeComplaintOnly = false ∧
    decisionLow.risk_level = RiskLevel.LOW ∧
    (apply_clinical_overrides intakeComplaintOnly decisionLow).risk_level =
      RiskLevel.LOW ∧
    RISK_PRIORITY_WEIGHT
        (apply_clinical_overrides intakeComplaintOnly decisionLow).risk_level <
      RISK_PRIORITY_WEIGHT RiskLevel.HIGH := by
  refine ⟨rfl, rfl, rfl, ?_, ?_⟩ <;> decide

/-- Claim C6 amended: the red-flag check reads symptom names, not the chief
complaint.  For every intake carrying a symptom whose lower-cased name is
exactly "chest pain" and every LOW decision, when the critical-vitals rule
does not fire the returned risk level is HIGH (and so at least HIGH in
priority weight). -/
theorem chest_pain_symptom_raises_low (intake : PatientIntake)
    (decision : TriageDecision)
    (hnv : vitals_rule_fires intake = false)
    (hs : ∃ s ∈ intake.symptoms, str_lower s.name = "chest pain")
    (hlow : decision.risk_level = RiskLevel.LOW) :
    (apply_clinical_overrides intake decision).risk_level = RiskLevel.HIGH ∧
    RISK_PRIORITY_WEIGHT RiskLevel.HIGH ≤
      RISK_PRIORITY_WEIGHT
        (apply_clinical_overrides intake decision).risk_level := by
  obtain ⟨s, hsmem, hname⟩ := hs
  have hflag : red_flag_present intake = true :=
    red_flag_present_of_symptom intake
      ⟨s, hsmem, by rw [hname]; exact List.mem_cons_self _ _⟩
  have h := red_flag_branch intake decision hnv hflag (Or.inl hlow)
  rw [h, confidence_calibration_risk_level]
  exact ⟨rfl, le_refl _⟩

/-- Witness for the amended C6 at the concrete "Chest Pain" symptom intake. -/
theorem chest_pain_symptom_raises_low_witness :
    (apply_clinical_overrides intakeChestPain decisionLow).risk_level =
      RiskLevel.HIGH ∧
    RISK_PRIORITY_WEIGHT RiskLevel.HIGH ≤
      RISK_PRIORITY_WEIGHT
        (apply_clinical_overrides intakeChestPain decisionLow).risk_level :=
  chest_pain_symptom_raises_low intakeChestPain decisionLow rfl
    ⟨{ name := "Chest Pain", severity := SymptomSeverity.MILD },
      by decide, by decide⟩ rfl

/-- Counterexample to claim C7 as stated: `apply_clinical_overrides` is not
idempotent.  On the hypoxic intake, a second application appends the
critical-vitals note a second time, so the accumulated reasoning text of the
twice-overridden decision differs from that of the once-overridden one (its
confidence also moves from 0.7 to 0.9). -/
theorem overrides_not_idempotent :
    (apply_clinical_overrides intakeHypoxic
        (apply_clinical_overrides intakeHypoxic decisionMid)).reasoning ≠
      (apply_clinical_overrides intakeHypoxic decisionMid).reasoning := by
  decide

/-- Claim C7 amended: only the risk level is idempotent.  Re-applying the
override to its own output never changes `risk_level` (CRITICAL stays
CRITICAL under the vitals rule; HIGH is outside the red-flag rule's LOW/MEDIUM
guard), but the reasoning text and the confidence score may change, as the
counterexample shows. -/
theorem overrides_risk_level_idempotent (intake : PatientIntake)
    (decision : TriageDecision) :
    (apply_clinical_overrides intake
        (apply_clinical_overrides intake decision)).risk_level =
      (apply_clinical_overrides intake decision).risk_level := by
  by_cases hv : vitals_rule_fires intake
  · unfold apply_clinical_overrides
    rw [if_pos hv, if_pos hv]
  · have hv2 : vitals_rule_fires intake = false := by
      exact Bool.not_eq_true _ ▸ eq_false_of_ne_true hv
    rw [apply_risk_level_eq intake _ hv2, apply_risk_level_eq intake _ hv2]
    by_cases hf : red_flag_present intake = true
    · cases hR : decision.risk_level <;> simp [hf]
    · simp [hf]

/-! # Claims about `FairTriageQueue` mutations (priority_queue.py) -/

/-- Counterexample to claim C2 as stated: `add_patient` never rejects.
Adding two entries with patient_id "p1" to an empty queue succeeds both
times; the active set afterwards holds two entries with the same patient_id,
so uniqueness is not enforced and no DuplicateEntry error exists. -/
theorem add_patient_accepts_duplicates :
    ((add_patient (add_patient { queue := [], audit_log := [] }
          (mkEntry "p1" (1/2) 0))
        (mkEntry "p1" (1/4) 1)).queue.map TriageEntry.patient_id) =
      ["p1", "p1"] ∧
    ¬ ((add_patient (add_patient { queue := [], audit_log := [] }
          (mkEntry "p1" (1/2) 0))
        (mkEntry "p1" (1/4) 1)).queue.map TriageEntry.patient_id).Nodup := by
  refine ⟨?_, ?_⟩ <;> decide

/-- Claim C2 amended: `add_patient` performs no duplicate check.  Even when
the new entry's patient_id is already active it appends the entry — with
position `len(queue)+1` and wait time 0 — to the active set and logs
PATIENT_ADDED; patient_id uniqueness across active entries is not
enforced. -/
theorem add_patient_always_appends (q : FairTriageQueue) (entry : TriageEntry)
    (hdup : entry.patient_id ∈ q.queue.map TriageEntry.patient_id) :
    (add_patient q entry).queue =
      q.queue ++ [{ entry with
                    queue_position := q.queue.length + 1
                    wait_time_minutes := 0 }] ∧
    (add_patient q entry).audit_log =
      q.audit_log ++ [{ action := "PATIENT_ADDED",
                        patient_id := some entry.patient_id }] :=
  ⟨rfl, rfl⟩

/-- Witness for the amended C2 at a queue already holding "p1". -/
theorem add_patient_always_appends_witness :
    (add_patient { queue := [mkEntry "p1" (1/2) 0], audit_log := [] }
        (mkEntry "p1" (1/4) 1)).queue =
      [mkEntry "p1" (1/2) 0] ++
        [{ mkEntry "p1" (1/4) 1 with
           queue_position := 2
           wait_time_minutes := 0 }] ∧
    (add_patient { queue := [mkEntry "p1" (1/2) 0], audit_log := [] }
        (mkEntry "p1" (1/4) 1)).audit_log =
      [] ++ [{ action := "PATIENT_ADDED", patient_id := some "p1" }] :=
  add_patient_always_appends
    { queue := [mkEntry "p1" (1/2) 0], audit_log := [] }
    (mkEntry "p1" (1/4) 1) (by decide)

theorem remove_first_of_not_mem (pid : String) :
    ∀ l : List TriageEntry, pid ∉ l.map TriageEntry.patient_id →
      remove_first pid l = none := by
  intro l
  induction l with
  | nil => intro _; rfl
  | cons e rest ih =>
    intro h
    rw [List.map_cons, List.mem_cons, not_or] at h
    unfold remove_first
    rw [if_neg (fun he => h.1 he.symm), ih h.2]

theorem escalate_in_queue_of_not_mem (pid : String) (newRisk : RiskLevel)
    (reason : String) :
    ∀ l : List TriageEntry, pid ∉ l.map TriageEntry.patient_id →
      escalate_in_queue pid newRisk reason l = none := by
  intro l
  induction l with
  | nil => intro _; rfl
  | cons e rest ih =>
    intro h
    rw [List.map_cons, List.mem_cons, not_or] at h
    unfold escalate_in_queue
    rw [if_neg (fun he => h.1 he.symm), ih h.2]

/-- Claim C9: on a patient_id that is not active, `mark_seen` returns None and
changes nothing — no entry is removed and no audit record is appended — and
`escalate_patient` likewise returns None with no mutation and no record. -/
theorem unknown_patient_untouched (q : FairTriageQueue) (pid : String)
    (newRisk : RiskLevel) (reason : String)
    (h : pid ∉ q.queue.map TriageEntry.patient_id) :
    mark_seen q pid = (none, q) ∧
    escalate_patient q pid newRisk reason = (none, q) := by
  unfold mark_seen escalate_patient
  rw [remove_first_of_not_mem pid q.queue h,
    escalate_in_queue_of_not_mem pid newRisk reason q.queue h]
  exact ⟨rfl, rfl⟩

/-- Witness for C9: "p9" is not in the three-entry fixture queue. -/
theorem unknown_patient_untouched_witness :
    mark_seen dupQueue "p9" = (none, dupQueue) ∧
    escalate_patient dupQueue "p9" RiskLevel.HIGH "worse" = (none, dupQueue) :=
  unknown_patient_untouched dupQueue "p9" RiskLevel.HIGH "worse" (by decide)

/-- Both linear scans of priority_queue.py stop at the first entry whose
patient_id matches: `escalate_patient` rewrites exactly that entry and
`mark_seen` pops exactly that entry, each leaving every other entry —
earlier non-matches and all later entries, duplicates included — unchanged. -/
theorem first_match_spec (pid : String) (newRisk : RiskLevel) (reason : String) :
    ∀ l : List TriageEntry, pid ∈ l.map TriageEntry.patient_id →
      ∃ pre e post,
        l = pre ++ e :: post ∧
        (∀ x ∈ pre, x.patient_id ≠ pid) ∧
        e.patient_id = pid ∧
        escalate_in_queue pid newRisk reason l =
          some (escalate_entry newRisk reason e,
                pre ++ escalate_entry newRisk reason e :: post) ∧
        remove_first pid l = some (e, pre ++ post) := by
  intro l
  induction l with
  | nil => intro h; simp at h
  | cons a rest ih =>
    intro h
    by_cases ha : a.patient_id = pid
    · refine ⟨[], a, rest, rfl, by simp, ha, ?_, ?_⟩
      · unfold escalate_in_queue; rw [if_pos ha]; rfl
      · unfold remove_first; rw [if_pos ha]; rfl
    · have hrest : pid ∈ rest.map TriageEntry.patient_id := by
        rw [List.map_cons, List.mem_cons] at h
        rcases h with h1 | h2
        · exact absurd h1.symm ha
        · exact h2
      obtain ⟨pre, e, post, hl, hpre, he, hesc, hrem⟩ := ih hrest
      refine ⟨a :: pre, e, post, by rw [List.cons_append, hl], ?_, he, ?_, ?_⟩
      · intro x hx
        rcases List.mem_cons.mp hx with rfl | hx2
        · exact ha
        · exact hpre x hx2
      · unfold escalate_in_queue; rw [if_neg ha, hesc]; rfl
      · unfold remove_first; rw [if_neg ha, hrem]; rfl

/-- Claim C10: with several active entries sharing a patient_id (which
`add_patient` permits), `escalate_patient` mutates only the
earliest-inserted matching entry and `mark_seen` removes exactly that one
entry, leaving every other entry — including the later duplicates —
unchanged, and each appends its single audit record. -/
theorem duplicate_ids_first_match_only (q : FairTriageQueue) (pid : String)
    (newRisk : RiskLevel) (reason : String)
    (h : pid ∈ q.queue.map TriageEntry.patient_id) :
    ∃ pre e post,
      q.queue = pre ++ e :: post ∧
      (∀ x ∈ pre, x.patient_id ≠ pid) ∧
      e.patient_id = pid ∧
      escalate_patient q pid newRisk reason =
        (some (escalate_entry newRisk reason e),
         { queue := pre ++ escalate_entry newRisk reason e :: post,
           audit_log := q.audit_log ++
             [{ action := "ESCALATION", patient_id := some pid }] }) ∧
      mark_seen q pid =
        (some e,
         { queue := pre ++ post,
           audit_log := q.audit_log ++
             [{ action := "PATIENT_SEEN", patient_id := some pid }] }) := by
  obtain ⟨pre, e, post, hl, hpre, he, hesc, hrem⟩ :=
    first_match_spec pid newRisk reason q.queue h
  refine ⟨pre, e, post, hl, hpre, he, ?_, ?_⟩
  · unfold escalate_patient; rw [hesc]
  · unfold mark_seen; rw [hrem]

/-- Witness for C10 on the fixture queue where "p1" occurs twice. -/
theorem duplicate_ids_first_match_only_witness :
    ∃ pre e post,
      dupQueue.queue = pre ++ e :: post ∧
      (∀ x ∈ pre, x.patient_id ≠ "p1") ∧
      e.patient_id = "p1" ∧
      escalate_patient dupQueue "p1" RiskLevel.HIGH "worse" =
        (some (escalate_entry RiskLevel.HIGH "worse" e),
         { queue := pre ++ escalate_entry RiskLevel.HIGH "worse" e :: post,
           audit_log := dupQueue.audit_log ++
             [{ action := "ESCALATION", patient_id := some "p1" }] }) ∧
      mark_seen dupQueue "p1" =
        (some e,
         { queue := pre ++ post,
           audit_log := dupQueue.audit_log ++
             [{ action := "PATIENT_SEEN", patient_id := some "p1" }] }) :=
  duplicate_ids_first_match_only dupQueue "p1" RiskLevel.HIGH "worse" (by decide)

/-! # The ranked view: sortedness and position assignment -/

theorem keyLe_trans : ∀ a b c : TriageEntry, keyLe a b → keyLe b c → keyLe a c := by
  intro a b c hab hbc
  simp only [keyLe, decide_eq_true_eq] at hab hbc ⊢
  exact le_trans hab hbc

theorem keyLe_total : ∀ a b : TriageEntry, keyLe a b || keyLe b a := by
  intro a b
  simpa [keyLe, Bool.or_eq_true, decide_eq_true_eq] using
    le_total (sortKey a) (sortKey b)

/-- The Boolean comparison on Python's negated sort keys coincides with the
ranking order described by the spec. -/
theorem keyLe_iff (a b : TriageEntry) : keyLe a b = true ↔ rankedBefore a b := by
  simp only [keyLe, decide_eq_true_eq, sortKey, rankedBefore, Prod.Lex.le_iff,
    neg_lt_neg_iff, neg_inj, Nat.cast_lt, Nat.cast_inj]

theorem mem_assign_positions {b : TriageEntry} :
    ∀ (n : Nat) (l : List TriageEntry), b ∈ assign_positions n l →
      ∃ a, a ∈ l ∧ ∃ i, b = { a with queue_position := i } := by
  intro n l
  induction l generalizing n with
  | nil => intro h; simp [assign_positions] at h
  | cons e rest ih =>
    intro hb
    rcases List.mem_cons.mp hb with h | h
    · exact ⟨e, List.mem_cons_self e rest, n, h⟩
    · obtain ⟨a, ha, i, rfl⟩ := ih (n + 1) h
      exact ⟨a, List.mem_cons_of_mem e ha, i, rfl⟩

/-- `rankedBefore` never reads `queue_position`, so position write-back
preserves it. -/
theorem rankedBefore_set_position {a b : TriageEntry} (i j : Nat)
    (h : rankedBefore a b) :
    rankedBefore { a with queue_position := i } { b with queue_position := j } := h

theorem pairwise_assign_positions :
    ∀ (n : Nat) (l : List TriageEntry), l.Pairwise rankedBefore →
      (assign_positions n l).Pairwise rankedBefore := by
  intro n l
  induction l generalizing n with
  | nil => intro _; exact List.Pairwise.nil
  | cons e rest ih =>
    intro h
    rcases List.pairwise_cons.mp h with ⟨he, ht⟩
    refine List.pairwise_cons.mpr ⟨?_, ih (n + 1) ht⟩
    intro b hb
    obtain ⟨a, ha, i, rfl⟩ := mem_assign_positions (n + 1) rest hb
    exact rankedBefore_set_position n i (he a ha)

theorem core_assign_positions :
    ∀ (n : Nat) (l : List TriageEntry),
      (assign_positions n l).map TriageEntry.core = l.map TriageEntry.core := by
  intro n l
  induction l generalizing n with
  | nil => rfl
  | cons e rest ih =>
    unfold assign_positions
    rw [List.map_cons, List.map_cons, ih (n + 1)]
    rfl

theorem map_position_assign :
    ∀ (n : Nat) (l : List TriageEntry),
      (assign_positions n l).map TriageEntry.queue_position =
        List.range' n l.length := by
  intro n l
  induction l generalizing n with
  | nil => rfl
  | cons e rest ih =>
    unfold assign_positions
    rw [List.map_cons, List.length_cons, List.range'_succ, ih (n + 1)]

/-- Claim C1: `get_sorted_queue` returns exactly the active entries (same
multiset, up to the derived position/wait fields every pass overwrites),
ordered by the lexicographic ranking: risk weight descending, then maximum
symptom severity score descending, then confidence descending, then
intake timestamp ascending.  In particular no HIGH entry ever precedes a
CRITICAL entry, and on a full tie of risk, severity and confidence the
earlier intake timestamp comes first. -/
theorem ranked_view_sorted (q : FairTriageQueue) (now : Int) :
    ((get_sorted_queue q now).map TriageEntry.core).Perm
        (q.queue.map TriageEntry.core) ∧
    (get_sorted_queue q now).Pairwise rankedBefore ∧
    (get_sorted_queue q now).Pairwise (fun a b =>
      a.triage_decision.risk_level = RiskLevel.HIGH →
      b.triage_decision.risk_level ≠ RiskLevel.CRITICAL) ∧
    (get_sorted_queue q now).Pairwise (fun a b =>
      a.triage_decision.risk_level = b.triage_decision.risk_level →
      get_patient_severity_score a = get_patient_severity_score b →
      a.triage_decision.confidence_score = b.triage_decision.confidence_score →
      a.intake_timestamp ≤ b.intake_timestamp) := by
  have hsorted0 : ((q.queue.map (update_wait_time now)).mergeSort keyLe).Pairwise
      (fun a b => keyLe a b) :=
    List.sorted_mergeSort keyLe_trans keyLe_total _
  have hsorted : (get_sorted_queue q now).Pairwise rankedBefore := by
    unfold get_sorted_queue
    exact pairwise_assign_positions 1 _
      (hsorted0.imp (fun h => (keyLe_iff _ _).mp h))
  refine ⟨?_, hsorted, ?_, ?_⟩
  · unfold get_sorted_queue
    rw [core_assign_positions]
    have h1 : (((q.queue.map (update_wait_time now)).mergeSort keyLe).map
        TriageEntry.core).Perm
          ((q.queue.map (update_wait_time now)).map TriageEntry.core) :=
      (List.mergeSort_perm _ _).map _
    have h2 : (q.queue.map (update_wait_time now)).map TriageEntry.core =
        q.queue.map TriageEntry.core := by
      rw [List.map_map]; rfl
    rw [h2] at h1
    exact h1
  · refine hsorted.imp ?_
    intro a b h ha hb
    unfold rankedBefore at h
    rw [ha, hb] at h
    rcases h with h | ⟨h, _⟩ <;> simp [RISK_PRIORITY_WEIGHT] at h
  · refine hsorted.imp ?_
    intro a b h hr hsev hconf
    unfold rankedBefore at h
    rcases h with h | ⟨_, h | ⟨_, h | ⟨_, hts⟩⟩⟩
    · rw [hr] at h; exact absurd h (lt_irrefl _)
    · rw [hsev] at h; exact absurd h (lt_irrefl _)
    · rw [hconf] at h; exact absurd h (lt_irrefl _)
    · exact hts

/-- Claim C3: after a ranking pass on a queue with N active entries, the
positions written into the ranked entries are exactly 1..N in rank order:
the entry at rank i carries queue_position i, with no gaps or duplicates. -/
theorem ranked_positions_contiguous (q : FairTriageQueue) (now : Int) :
    (get_sorted_queue q now).map TriageEntry.queue_position =
      List.range' 1 q.queue.length := by
  unfold get_sorted_queue
  rw [map_position_assign]
  congr 1
  rw [(List.mergeSort_perm _ _).length_eq, List.length_map]

end EdgeCare
